import Mathlib

/-!
# web/firebase-config.js

A shallow embedding of the module `web/firebase-config.js` of the MedWave admin
panel.  The module declares one object literal (`firebaseConfig`), passes it to
the SDK entry point `initializeApp`, calls four service getters on the returned
application handle and exports the four results.

The Firebase SDK is not part of the repository: it is a parameter of the model.
Every SDK function may throw and may consult and update the SDK's own internal
state.  Two levels are used.  `Sdk` and `load` describe an SDK that leaves the
configuration object alone, and `load` writes down the calls it makes.  `RefSdk` and
`loadRef` describe any SDK, including one that writes into the object it is handed by
reference, and the calls are those logged by an instrumented SDK; on an SDK that
leaves the object alone the two levels agree (`loadRef_toRef`, `observedCalls_toRef`).
-/

namespace FirebaseConfig

/-- An object literal all of whose properties are string literals, in source order. -/
abbrev Config := List (String × String)

/-- A value that an SDK function can hand back: JavaScript `undefined`, `null`, or an
object, identified by its reference (two objects are the same object iff the
references agree). -/
inductive Handle where
  | undefined
  | null
  | obj (ref : Nat)
  deriving DecidableEq, Repr

/-- The value is neither `null` nor `undefined`. -/
def Handle.isDefined : Handle → Bool
  | .obj _ => true
  | _ => false

/-- The five SDK functions imported by the module (lines 5-9). -/
inductive SdkFn where
  | initializeApp
  | getAnalytics
  | getFirestore
  | getAuth
  | getStorage
  deriving DecidableEq, Repr

/-- An argument of an SDK call: the configuration object or a handle. -/
inductive Arg where
  | config (c : Config)
  | handle (h : Handle)
  deriving DecidableEq, Repr

/-- One call into the SDK: the function and its argument list. -/
structure Call where
  fn : SdkFn
  args : List Arg
  deriving DecidableEq, Repr

/-- The imported SDK.  `σ` is the SDK's internal state, `ε` the type of thrown values.
The signatures follow the call sites of the module: `initializeApp` is applied to
one configuration object, each getter to one application handle.  An SDK of this type
leaves the configuration object as it found it; `RefSdk` below drops that restriction. -/
structure Sdk (σ ε : Type) where
  initializeApp : Config → σ → Except ε (Handle × σ)
  getAnalytics : Handle → σ → Except ε (Handle × σ)
  getFirestore : Handle → σ → Except ε (Handle × σ)
  getAuth : Handle → σ → Except ε (Handle × σ)
  getStorage : Handle → σ → Except ε (Handle × σ)

/-- The object literal of lines 12-20. -/
def firebaseConfig : Config :=
  [ ("apiKey", "AIzaSyC_medx_ai_web_api_key"),
    ("authDomain", "medx-ai.firebaseapp.com"),
    ("projectId", "medx-ai"),
    ("storageBucket", "medx-ai.firebasestorage.app"),
    ("messagingSenderId", "987654321"),
    ("appId", "1:987654321:web:medx_ai_web_app_id"),
    ("measurementId", "G-MEDX_AI_MEASUREMENT_ID") ]

/-- The module scope once the module body has run: the six `const` bindings of
lines 12-29. -/
structure Module where
  firebaseConfig : Config
  app : Handle
  analytics : Handle
  db : Handle
  auth : Handle
  storage : Handle
  deriving DecidableEq, Repr

/-- The export statement of line 31, `export { db, auth, storage, analytics }`:
exported name and the binding it exposes, in source order. -/
def Module.exports (m : Module) : List (String × Handle) :=
  [("db", m.db), ("auth", m.auth), ("storage", m.storage), ("analytics", m.analytics)]

/-- What an importer gets for `import { name }` from the module. -/
def Module.lookupExport (m : Module) (name : String) : Option Handle :=
  m.exports.lookup name

/-- The result of evaluating the module body: the SDK calls made, in order, and either
the thrown value or the module scope together with the SDK state left behind. -/
structure LoadResult (σ ε : Type) where
  trace : List Call
  outcome : Except ε (Module × σ)

/-- Evaluation of the module body, lines 12-29, statement by statement.  A throwing
call ends the evaluation at once with the thrown value (the module has no
`try`); the trace lists the calls made so far. -/
def load {σ ε : Type} (sdk : Sdk σ ε) (s0 : σ) : LoadResult σ ε :=
  let config := firebaseConfig
  let c0 : Call := ⟨.initializeApp, [.config config]⟩
  match sdk.initializeApp config s0 with
  | .error e => ⟨[c0], .error e⟩
  | .ok (app, s1) =>
    let c1 : Call := ⟨.getAnalytics, [.handle app]⟩
    match sdk.getAnalytics app s1 with
    | .error e => ⟨[c0, c1], .error e⟩
    | .ok (analytics, s2) =>
      let c2 : Call := ⟨.getFirestore, [.handle app]⟩
      match sdk.getFirestore app s2 with
      | .error e => ⟨[c0, c1, c2], .error e⟩
      | .ok (db, s3) =>
        let c3 : Call := ⟨.getAuth, [.handle app]⟩
        match sdk.getAuth app s3 with
        | .error e => ⟨[c0, c1, c2, c3], .error e⟩
        | .ok (auth, s4) =>
          let c4 : Call := ⟨.getStorage, [.handle app]⟩
          match sdk.getStorage app s4 with
          | .error e => ⟨[c0, c1, c2, c3, c4], .error e⟩
          | .ok (storage, s5) =>
            ⟨[c0, c1, c2, c3, c4], .ok (⟨config, app, analytics, db, auth, storage⟩, s5)⟩

/-- The handles an importer can reach after the load: the export list of the module
scope, or nothing when the module body threw. -/
def LoadResult.exported {σ ε : Type} (r : LoadResult σ ε) : List (String × Handle) :=
  match r.outcome with
  | .ok (m, _) => m.exports
  | .error _ => []

/-- The seven configuration fields the specification requires. -/
def requiredFields : List String :=
  ["apiKey", "authDomain", "projectId", "storageBucket", "messagingSenderId", "appId",
    "measurementId"]

/-- The complete call sequence of a load that runs to its end, as a function of the
application handle. -/
def fullTrace (app : Handle) : List Call :=
  [ ⟨.initializeApp, [.config firebaseConfig]⟩,
    ⟨.getAnalytics, [.handle app]⟩,
    ⟨.getFirestore, [.handle app]⟩,
    ⟨.getAuth, [.handle app]⟩,
    ⟨.getStorage, [.handle app]⟩ ]

/-- Splitting a character list at every occurrence of a separator (the pieces between
separators, empty pieces included). -/
def splitAt (sep : Char) : List Char → List (List Char)
  | [] => [[]]
  | c :: cs =>
    if c = sep then [] :: splitAt sep cs
    else
      match splitAt sep cs with
      | [] => [[c]]
      | p :: ps => (c :: p) :: ps

/-- The string split on a separator character. -/
def splitOnChar (s : String) (sep : Char) : List String :=
  (splitAt sep s.toList).map String.mk

/-- The six ways a load can end: one of the five calls throws, or all of them return. -/
inductive LoadShape {σ ε : Type} (sdk : Sdk σ ε) (s0 : σ) : Prop where
  | initFails (e : ε)
      (h0 : sdk.initializeApp firebaseConfig s0 = .error e)
      (hl : load sdk s0 = ⟨(fullTrace .undefined).take 1, .error e⟩)
  | analyticsFails (app : Handle) (s1 : σ) (e : ε)
      (h0 : sdk.initializeApp firebaseConfig s0 = .ok (app, s1))
      (h1 : sdk.getAnalytics app s1 = .error e)
      (hl : load sdk s0 = ⟨(fullTrace app).take 2, .error e⟩)
  | firestoreFails (app a : Handle) (s1 s2 : σ) (e : ε)
      (h0 : sdk.initializeApp firebaseConfig s0 = .ok (app, s1))
      (h1 : sdk.getAnalytics app s1 = .ok (a, s2))
      (h2 : sdk.getFirestore app s2 = .error e)
      (hl : load sdk s0 = ⟨(fullTrace app).take 3, .error e⟩)
  | authFails (app a d : Handle) (s1 s2 s3 : σ) (e : ε)
      (h0 : sdk.initializeApp firebaseConfig s0 = .ok (app, s1))
      (h1 : sdk.getAnalytics app s1 = .ok (a, s2))
      (h2 : sdk.getFirestore app s2 = .ok (d, s3))
      (h3 : sdk.getAuth app s3 = .error e)
      (hl : load sdk s0 = ⟨(fullTrace app).take 4, .error e⟩)
  | storageFails (app a d u : Handle) (s1 s2 s3 s4 : σ) (e : ε)
      (h0 : sdk.initializeApp firebaseConfig s0 = .ok (app, s1))
      (h1 : sdk.getAnalytics app s1 = .ok (a, s2))
      (h2 : sdk.getFirestore app s2 = .ok (d, s3))
      (h3 : sdk.getAuth app s3 = .ok (u, s4))
      (h4 : sdk.getStorage app s4 = .error e)
      (hl : load sdk s0 = ⟨fullTrace app, .error e⟩)
  | completes (app a d u g : Handle) (s1 s2 s3 s4 s5 : σ)
      (h0 : sdk.initializeApp firebaseConfig s0 = .ok (app, s1))
      (h1 : sdk.getAnalytics app s1 = .ok (a, s2))
      (h2 : sdk.getFirestore app s2 = .ok (d, s3))
      (h3 : sdk.getAuth app s3 = .ok (u, s4))
      (h4 : sdk.getStorage app s4 = .ok (g, s5))
      (hl : load sdk s0 = ⟨fullTrace app, .ok (⟨firebaseConfig, app, a, d, u, g⟩, s5)⟩)

/-! ## The configuration object passed by reference

Line 23 hands the SDK the module's own object, not a copy, and the module never
freezes it.  `RefSdk` is an SDK that may read and write that object during any call;
`Sdk` above is the special case of an SDK that leaves it alone (`Sdk.toRef`).  The
calls are not written down by the loader: they are what an instrumented SDK
(`RefSdk.spy`) sees. -/

/-- An SDK that is handed the configuration object by reference.  `initializeApp` is
applied to the object (its contents on entry) and returns the application handle, the
contents of the object on return, and the SDK state.  A getter is applied to a handle
alone; the object is not among its arguments, but an SDK that kept the reference can
still read and write it, so the contents of the object go through every call. -/
structure RefSdk (σ ε : Type) where
  initializeApp : Config → σ → Except ε (Handle × Config × σ)
  getAnalytics : Handle → Config → σ → Except ε (Handle × Config × σ)
  getFirestore : Handle → Config → σ → Except ε (Handle × Config × σ)
  getAuth : Handle → Config → σ → Except ε (Handle × Config × σ)
  getStorage : Handle → Config → σ → Except ε (Handle × Config × σ)

/-- Evaluation of the module body, lines 12-29, with the object of lines 12-20 passed by
reference at line 23.  The module has no statement that writes to the object, so between
calls its contents are what the last call left; the binding `firebaseConfig` of the
resulting scope shows the contents after the last call. -/
def loadRef {σ ε : Type} (sdk : RefSdk σ ε) (s0 : σ) : Except ε (Module × σ) :=
  match sdk.initializeApp firebaseConfig s0 with
  | .error e => .error e
  | .ok (app, o1, s1) =>
    match sdk.getAnalytics app o1 s1 with
    | .error e => .error e
    | .ok (analytics, o2, s2) =>
      match sdk.getFirestore app o2 s2 with
      | .error e => .error e
      | .ok (db, o3, s3) =>
        match sdk.getAuth app o3 s3 with
        | .error e => .error e
        | .ok (auth, o4, s4) =>
          match sdk.getStorage app o4 s4 with
          | .error e => .error e
          | .ok (storage, o5, s5) => .ok (⟨o5, app, analytics, db, auth, storage⟩, s5)

/-- One instrumented SDK function: it appends the call to the log, then behaves as the
function it wraps; a thrown value carries the log along. -/
def spyOn {σ ε : Type} (call : Call) (f : σ → Except ε (Handle × Config × σ)) :
    σ × List Call → Except (ε × List Call) (Handle × Config × (σ × List Call)) :=
  fun st =>
    match f st.1 with
    | .error e => .error (e, st.2 ++ [call])
    | .ok (h, o, s) => .ok (h, o, (s, st.2 ++ [call]))

/-- The SDK instrumented to log every call made into it, with the arguments it was
applied to (for `initializeApp`, the contents of the object at the time of the call). -/
def RefSdk.spy {σ ε : Type} (sdk : RefSdk σ ε) : RefSdk (σ × List Call) (ε × List Call) where
  initializeApp := fun c => spyOn ⟨.initializeApp, [.config c]⟩ (sdk.initializeApp c)
  getAnalytics := fun h o => spyOn ⟨.getAnalytics, [.handle h]⟩ (sdk.getAnalytics h o)
  getFirestore := fun h o => spyOn ⟨.getFirestore, [.handle h]⟩ (sdk.getFirestore h o)
  getAuth := fun h o => spyOn ⟨.getAuth, [.handle h]⟩ (sdk.getAuth h o)
  getStorage := fun h o => spyOn ⟨.getStorage, [.handle h]⟩ (sdk.getStorage h o)

/-- The calls the module makes into the SDK during one load, in order, as logged by the
instrumented SDK, whether the load completes or is cut short by a throw. -/
def observedCalls {σ ε : Type} (sdk : RefSdk σ ε) (s0 : σ) : List Call :=
  match loadRef sdk.spy (s0, []) with
  | .ok (_, (_, log)) => log
  | .error (_, log) => log

/-- How many of the observed calls are calls of the given SDK function. -/
def callCount {σ ε : Type} (sdk : RefSdk σ ε) (s0 : σ) (f : SdkFn) : Nat :=
  ((observedCalls sdk s0).filter (fun c => decide (c.fn = f))).length

/-- An SDK that returns only a handle, seen as one that is handed the object by reference
and never writes to it. -/
def Sdk.toRef {σ ε : Type} (sdk : Sdk σ ε) : RefSdk σ ε where
  initializeApp := fun c s =>
    match sdk.initializeApp c s with
    | .error e => .error e
    | .ok (h, s1) => .ok (h, c, s1)
  getAnalytics := fun h o s =>
    match sdk.getAnalytics h s with
    | .error e => .error e
    | .ok (r, s1) => .ok (r, o, s1)
  getFirestore := fun h o s =>
    match sdk.getFirestore h s with
    | .error e => .error e
    | .ok (r, s1) => .ok (r, o, s1)
  getAuth := fun h o s =>
    match sdk.getAuth h s with
    | .error e => .error e
    | .ok (r, s1) => .ok (r, o, s1)
  getStorage := fun h o s =>
    match sdk.getStorage h s with
    | .error e => .error e
    | .ok (r, s1) => .ok (r, o, s1)

/-- The SDK never changes the contents of the object it was handed: every call that
returns leaves them as it found them. -/
def RefSdk.LeavesConfig {σ ε : Type} (sdk : RefSdk σ ε) : Prop :=
  (∀ c s h o s1, sdk.initializeApp c s = .ok (h, o, s1) → o = c) ∧
  (∀ h c s r o s1, sdk.getAnalytics h c s = .ok (r, o, s1) → o = c) ∧
  (∀ h c s r o s1, sdk.getFirestore h c s = .ok (r, o, s1) → o = c) ∧
  (∀ h c s r o s1, sdk.getAuth h c s = .ok (r, o, s1) → o = c) ∧
  (∀ h c s r o s1, sdk.getStorage h c s = .ok (r, o, s1) → o = c)

/-- The six ways a load by reference can end, each with its outcome and with the calls
the instrumented SDK saw. -/
inductive RefLoadShape {σ ε : Type} (sdk : RefSdk σ ε) (s0 : σ) : Prop where
  | initFails (e : ε)
      (h0 : sdk.initializeApp firebaseConfig s0 = .error e)
      (hl : loadRef sdk s0 = .error e)
      (ho : observedCalls sdk s0 = (fullTrace .undefined).take 1)
  | analyticsFails (app : Handle) (o1 : Config) (s1 : σ) (e : ε)
      (h0 : sdk.initializeApp firebaseConfig s0 = .ok (app, o1, s1))
      (h1 : sdk.getAnalytics app o1 s1 = .error e)
      (hl : loadRef sdk s0 = .error e)
      (ho : observedCalls sdk s0 = (fullTrace app).take 2)
  | firestoreFails (app a : Handle) (o1 o2 : Config) (s1 s2 : σ) (e : ε)
      (h0 : sdk.initializeApp firebaseConfig s0 = .ok (app, o1, s1))
      (h1 : sdk.getAnalytics app o1 s1 = .ok (a, o2, s2))
      (h2 : sdk.getFirestore app o2 s2 = .error e)
      (hl : loadRef sdk s0 = .error e)
      (ho : observedCalls sdk s0 = (fullTrace app).take 3)
  | authFails (app a d : Handle) (o1 o2 o3 : Config) (s1 s2 s3 : σ) (e : ε)
      (h0 : sdk.initializeApp firebaseConfig s0 = .ok (app, o1, s1))
      (h1 : sdk.getAnalytics app o1 s1 = .ok (a, o2, s2))
      (h2 : sdk.getFirestore app o2 s2 = .ok (d, o3, s3))
      (h3 : sdk.getAuth app o3 s3 = .error e)
      (hl : loadRef sdk s0 = .error e)
      (ho : observedCalls sdk s0 = (fullTrace app).take 4)
  | storageFails (app a d u : Handle) (o1 o2 o3 o4 : Config) (s1 s2 s3 s4 : σ) (e : ε)
      (h0 : sdk.initializeApp firebaseConfig s0 = .ok (app, o1, s1))
      (h1 : sdk.getAnalytics app o1 s1 = .ok (a, o2, s2))
      (h2 : sdk.getFirestore app o2 s2 = .ok (d, o3, s3))
      (h3 : sdk.getAuth app o3 s3 = .ok (u, o4, s4))
      (h4 : sdk.getStorage app o4 s4 = .error e)
      (hl : loadRef sdk s0 = .error e)
      (ho : observedCalls sdk s0 = fullTrace app)
  | completes (app a d u g : Handle) (o1 o2 o3 o4 o5 : Config) (s1 s2 s3 s4 s5 : σ)
      (h0 : sdk.initializeApp firebaseConfig s0 = .ok (app, o1, s1))
      (h1 : sdk.getAnalytics app o1 s1 = .ok (a, o2, s2))
      (h2 : sdk.getFirestore app o2 s2 = .ok (d, o3, s3))
      (h3 : sdk.getAuth app o3 s3 = .ok (u, o4, s4))
      (h4 : sdk.getStorage app o4 s4 = .ok (g, o5, s5))
      (hl : loadRef sdk s0 = .ok (⟨o5, app, a, d, u, g⟩, s5))
      (ho : observedCalls sdk s0 = fullTrace app)

/-! ## Sample SDKs used to evaluate the model on concrete inputs -/

/-- An SDK that allocates a fresh object on every call; its state is the next free
reference. -/
def freshSdk : Sdk Nat String where
  initializeApp := fun _ n => .ok (.obj n, n + 1)
  getAnalytics := fun _ n => .ok (.obj n, n + 1)
  getFirestore := fun _ n => .ok (.obj n, n + 1)
  getAuth := fun _ n => .ok (.obj n, n + 1)
  getStorage := fun _ n => .ok (.obj n, n + 1)

/-- An SDK stub, of the kind a test double provides, all of whose getters hand back
one shared object. -/
def sharedSdk : Sdk Unit String where
  initializeApp := fun _ s => .ok (.obj 0, s)
  getAnalytics := fun _ s => .ok (.obj 1, s)
  getFirestore := fun _ s => .ok (.obj 1, s)
  getAuth := fun _ s => .ok (.obj 1, s)
  getStorage := fun _ s => .ok (.obj 1, s)

/-- An SDK whose authentication service is unavailable: `getAuth` throws. -/
def authDownSdk : Sdk Nat String where
  initializeApp := fun _ n => .ok (.obj n, n + 1)
  getAnalytics := fun _ n => .ok (.obj n, n + 1)
  getFirestore := fun _ n => .ok (.obj n, n + 1)
  getAuth := fun _ _ => .error "auth/network-request-failed"
  getStorage := fun _ n => .ok (.obj n, n + 1)

/-- An SDK that, once initialised, blanks the API key in the options object it was
handed, so that the secret does not stay readable to the rest of the page. -/
def redactingSdk : RefSdk Nat String where
  initializeApp := fun c n =>
    .ok (.obj n, c.map (fun p => if p.1 = "apiKey" then (p.1, "") else p), n + 1)
  getAnalytics := fun _ o n => .ok (.obj n, o, n + 1)
  getFirestore := fun _ o n => .ok (.obj n, o, n + 1)
  getAuth := fun _ o n => .ok (.obj n, o, n + 1)
  getStorage := fun _ o n => .ok (.obj n, o, n + 1)

/-! ## The shape of every load -/

section LoadLemmas

variable {σ ε : Type}

/-- A throwing `initializeApp` ends the load after that one call. -/
theorem load_initializeApp_error (sdk : Sdk σ ε) (s0 : σ) (e : ε)
    (h0 : sdk.initializeApp firebaseConfig s0 = .error e) :
    load sdk s0 = ⟨(fullTrace .undefined).take 1, .error e⟩ := by
  simp [load, h0, fullTrace]

/-- A throwing `getAnalytics` ends the load after two calls. -/
theorem load_getAnalytics_error (sdk : Sdk σ ε) (s0 s1 : σ) (app : Handle) (e : ε)
    (h0 : sdk.initializeApp firebaseConfig s0 = .ok (app, s1))
    (h1 : sdk.getAnalytics app s1 = .error e) :
    load sdk s0 = ⟨(fullTrace app).take 2, .error e⟩ := by
  simp [load, h0, h1, fullTrace]

/-- A throwing `getFirestore` ends the load after three calls. -/
theorem load_getFirestore_error (sdk : Sdk σ ε) (s0 s1 s2 : σ) (app a : Handle) (e : ε)
    (h0 : sdk.initializeApp firebaseConfig s0 = .ok (app, s1))
    (h1 : sdk.getAnalytics app s1 = .ok (a, s2))
    (h2 : sdk.getFirestore app s2 = .error e) :
    load sdk s0 = ⟨(fullTrace app).take 3, .error e⟩ := by
  simp [load, h0, h1, h2, fullTrace]

/-- A throwing `getAuth` ends the load after four calls. -/
theorem load_getAuth_error (sdk : Sdk σ ε) (s0 s1 s2 s3 : σ) (app a d : Handle) (e : ε)
    (h0 : sdk.initializeApp firebaseConfig s0 = .ok (app, s1))
    (h1 : sdk.getAnalytics app s1 = .ok (a, s2))
    (h2 : sdk.getFirestore app s2 = .ok (d, s3))
    (h3 : sdk.getAuth app s3 = .error e) :
    load sdk s0 = ⟨(fullTrace app).take 4, .error e⟩ := by
  simp [load, h0, h1, h2, h3, fullTrace]

/-- A throwing `getStorage` ends the load after all five calls. -/
theorem load_getStorage_error (sdk : Sdk σ ε) (s0 s1 s2 s3 s4 : σ) (app a d u : Handle)
    (e : ε)
    (h0 : sdk.initializeApp firebaseConfig s0 = .ok (app, s1))
    (h1 : sdk.getAnalytics app s1 = .ok (a, s2))
    (h2 : sdk.getFirestore app s2 = .ok (d, s3))
    (h3 : sdk.getAuth app s3 = .ok (u, s4))
    (h4 : sdk.getStorage app s4 = .error e) :
    load sdk s0 = ⟨fullTrace app, .error e⟩ := by
  simp [load, h0, h1, h2, h3, h4, fullTrace]

/-- When all five calls return, the load ends with the six bindings set. -/
theorem load_all_ok (sdk : Sdk σ ε) (s0 s1 s2 s3 s4 s5 : σ) (app a d u g : Handle)
    (h0 : sdk.initializeApp firebaseConfig s0 = .ok (app, s1))
    (h1 : sdk.getAnalytics app s1 = .ok (a, s2))
    (h2 : sdk.getFirestore app s2 = .ok (d, s3))
    (h3 : sdk.getAuth app s3 = .ok (u, s4))
    (h4 : sdk.getStorage app s4 = .ok (g, s5)) :
    load sdk s0 = ⟨fullTrace app, .ok (⟨firebaseConfig, app, a, d, u, g⟩, s5)⟩ := by
  simp [load, h0, h1, h2, h3, h4, fullTrace]

/-- Every load ends in one of the six ways. -/
theorem load_shape (sdk : Sdk σ ε) (s0 : σ) : LoadShape sdk s0 := by
  rcases h0 : sdk.initializeApp firebaseConfig s0 with e | ⟨app, s1⟩
  · exact .initFails e h0 (load_initializeApp_error sdk s0 e h0)
  rcases h1 : sdk.getAnalytics app s1 with e | ⟨a, s2⟩
  · exact .analyticsFails app s1 e h0 h1 (load_getAnalytics_error sdk s0 s1 app e h0 h1)
  rcases h2 : sdk.getFirestore app s2 with e | ⟨d, s3⟩
  · exact .firestoreFails app a s1 s2 e h0 h1 h2
      (load_getFirestore_error sdk s0 s1 s2 app a e h0 h1 h2)
  rcases h3 : sdk.getAuth app s3 with e | ⟨u, s4⟩
  · exact .authFails app a d s1 s2 s3 e h0 h1 h2 h3
      (load_getAuth_error sdk s0 s1 s2 s3 app a d e h0 h1 h2 h3)
  rcases h4 : sdk.getStorage app s4 with e | ⟨g, s5⟩
  · exact .storageFails app a d u s1 s2 s3 s4 e h0 h1 h2 h3 h4
      (load_getStorage_error sdk s0 s1 s2 s3 s4 app a d u e h0 h1 h2 h3 h4)
  exact .completes app a d u g s1 s2 s3 s4 s5 h0 h1 h2 h3 h4
    (load_all_ok sdk s0 s1 s2 s3 s4 s5 app a d u g h0 h1 h2 h3 h4)

/-- A load that completed: the calls that returned, and the scope they produced. -/
theorem load_ok_inv (sdk : Sdk σ ε) (s0 s : σ) (m : Module)
    (h : (load sdk s0).outcome = .ok (m, s)) :
    ∃ s1 s2 s3 s4,
      sdk.initializeApp firebaseConfig s0 = .ok (m.app, s1) ∧
      sdk.getAnalytics m.app s1 = .ok (m.analytics, s2) ∧
      sdk.getFirestore m.app s2 = .ok (m.db, s3) ∧
      sdk.getAuth m.app s3 = .ok (m.auth, s4) ∧
      sdk.getStorage m.app s4 = .ok (m.storage, s) ∧
      m.firebaseConfig = firebaseConfig ∧
      load sdk s0 = ⟨fullTrace m.app, .ok (m, s)⟩ := by
  rcases load_shape sdk s0 with ⟨e, h0, hl⟩ | ⟨app, s1, e, h0, h1, hl⟩ |
    ⟨app, a, s1, s2, e, h0, h1, h2, hl⟩ | ⟨app, a, d, s1, s2, s3, e, h0, h1, h2, h3, hl⟩ |
    ⟨app, a, d, u, s1, s2, s3, s4, e, h0, h1, h2, h3, h4, hl⟩ |
    ⟨app, a, d, u, g, s1, s2, s3, s4, s5, h0, h1, h2, h3, h4, hl⟩
  all_goals rw [hl] at h
  all_goals try (simp at h; done)
  simp only [Except.ok.injEq, Prod.mk.injEq] at h
  obtain ⟨rfl, rfl⟩ := h
  exact ⟨s1, s2, s3, s4, h0, h1, h2, h3, h4, rfl, hl⟩

end LoadLemmas

/-! ## The shape of every load by reference -/

section RefLoadLemmas

variable {σ ε : Type}

/-- Every load by reference ends in one of the six ways. -/
theorem refLoad_shape (sdk : RefSdk σ ε) (s0 : σ) : RefLoadShape sdk s0 := by
  rcases h0 : sdk.initializeApp firebaseConfig s0 with e | ⟨app, o1, s1⟩
  · exact .initFails e h0 (by simp [loadRef, h0])
      (by simp [observedCalls, loadRef, RefSdk.spy, spyOn, h0, fullTrace])
  rcases h1 : sdk.getAnalytics app o1 s1 with e | ⟨a, o2, s2⟩
  · exact .analyticsFails app o1 s1 e h0 h1 (by simp [loadRef, h0, h1])
      (by simp [observedCalls, loadRef, RefSdk.spy, spyOn, h0, h1, fullTrace])
  rcases h2 : sdk.getFirestore app o2 s2 with e | ⟨d, o3, s3⟩
  · exact .firestoreFails app a o1 o2 s1 s2 e h0 h1 h2 (by simp [loadRef, h0, h1, h2])
      (by simp [observedCalls, loadRef, RefSdk.spy, spyOn, h0, h1, h2, fullTrace])
  rcases h3 : sdk.getAuth app o3 s3 with e | ⟨u, o4, s4⟩
  · exact .authFails app a d o1 o2 o3 s1 s2 s3 e h0 h1 h2 h3
      (by simp [loadRef, h0, h1, h2, h3])
      (by simp [observedCalls, loadRef, RefSdk.spy, spyOn, h0, h1, h2, h3, fullTrace])
  rcases h4 : sdk.getStorage app o4 s4 with e | ⟨g, o5, s5⟩
  · exact .storageFails app a d u o1 o2 o3 o4 s1 s2 s3 s4 e h0 h1 h2 h3 h4
      (by simp [loadRef, h0, h1, h2, h3, h4])
      (by simp [observedCalls, loadRef, RefSdk.spy, spyOn, h0, h1, h2, h3, h4, fullTrace])
  exact .completes app a d u g o1 o2 o3 o4 o5 s1 s2 s3 s4 s5 h0 h1 h2 h3 h4
    (by simp [loadRef, h0, h1, h2, h3, h4])
    (by simp [observedCalls, loadRef, RefSdk.spy, spyOn, h0, h1, h2, h3, h4, fullTrace])

/-- When all five calls return, the load by reference completes, the binding
`firebaseConfig` shows what the last call left in the object, and the instrumented SDK
saw the five calls. -/
theorem refLoad_all_ok (sdk : RefSdk σ ε) (s0 s1 s2 s3 s4 s5 : σ) (app a d u g : Handle)
    (o1 o2 o3 o4 o5 : Config)
    (h0 : sdk.initializeApp firebaseConfig s0 = .ok (app, o1, s1))
    (h1 : sdk.getAnalytics app o1 s1 = .ok (a, o2, s2))
    (h2 : sdk.getFirestore app o2 s2 = .ok (d, o3, s3))
    (h3 : sdk.getAuth app o3 s3 = .ok (u, o4, s4))
    (h4 : sdk.getStorage app o4 s4 = .ok (g, o5, s5)) :
    loadRef sdk s0 = .ok (⟨o5, app, a, d, u, g⟩, s5) ∧
    observedCalls sdk s0 = fullTrace app := by
  constructor
  · simp [loadRef, h0, h1, h2, h3, h4]
  · simp [observedCalls, loadRef, RefSdk.spy, spyOn, h0, h1, h2, h3, h4, fullTrace]

/-- A load by reference that completed: the calls that returned, the contents of the
object after each, and the calls the instrumented SDK saw. -/
theorem refLoad_ok_inv (sdk : RefSdk σ ε) (s0 s : σ) (m : Module)
    (h : loadRef sdk s0 = .ok (m, s)) :
    ∃ o1 o2 o3 o4 s1 s2 s3 s4,
      sdk.initializeApp firebaseConfig s0 = .ok (m.app, o1, s1) ∧
      sdk.getAnalytics m.app o1 s1 = .ok (m.analytics, o2, s2) ∧
      sdk.getFirestore m.app o2 s2 = .ok (m.db, o3, s3) ∧
      sdk.getAuth m.app o3 s3 = .ok (m.auth, o4, s4) ∧
      sdk.getStorage m.app o4 s4 = .ok (m.storage, m.firebaseConfig, s) ∧
      observedCalls sdk s0 = fullTrace m.app := by
  rcases refLoad_shape sdk s0 with ⟨e, h0, hl, ho⟩ | ⟨app, o1, s1, e, h0, h1, hl, ho⟩ |
    ⟨app, a, o1, o2, s1, s2, e, h0, h1, h2, hl, ho⟩ |
    ⟨app, a, d, o1, o2, o3, s1, s2, s3, e, h0, h1, h2, h3, hl, ho⟩ |
    ⟨app, a, d, u, o1, o2, o3, o4, s1, s2, s3, s4, e, h0, h1, h2, h3, h4, hl, ho⟩ |
    ⟨app, a, d, u, g, o1, o2, o3, o4, o5, s1, s2, s3, s4, s5, h0, h1, h2, h3, h4, hl, ho⟩
  all_goals rw [hl] at h
  all_goals try (simp at h; done)
  simp only [Except.ok.injEq, Prod.mk.injEq] at h
  obtain ⟨rfl, rfl⟩ := h
  exact ⟨o1, o2, o3, o4, s1, s2, s3, s4, h0, h1, h2, h3, h4, ho⟩

/-- An SDK that returns only handles never writes to the object. -/
theorem toRef_leavesConfig (sdk : Sdk σ ε) : sdk.toRef.LeavesConfig := by
  refine ⟨?_, ?_, ?_, ?_, ?_⟩
  · intro c s h o s1 hc
    simp only [Sdk.toRef] at hc
    split at hc
    · simp at hc
    · simp only [Except.ok.injEq, Prod.mk.injEq] at hc
      exact hc.2.1.symm
  all_goals
    intro h c s r o s1 hc
    simp only [Sdk.toRef] at hc
    split at hc
    · simp at hc
    · simp only [Except.ok.injEq, Prod.mk.injEq] at hc
      exact hc.2.1.symm

/-- On an SDK that leaves the object alone, the load by reference ends as `load` does. -/
theorem loadRef_toRef (sdk : Sdk σ ε) (s0 : σ) :
    loadRef sdk.toRef s0 = (load sdk s0).outcome := by
  rcases load_shape sdk s0 with ⟨e, h0, hl⟩ | ⟨app, s1, e, h0, h1, hl⟩ |
    ⟨app, a, s1, s2, e, h0, h1, h2, hl⟩ | ⟨app, a, d, s1, s2, s3, e, h0, h1, h2, h3, hl⟩ |
    ⟨app, a, d, u, s1, s2, s3, s4, e, h0, h1, h2, h3, h4, hl⟩ |
    ⟨app, a, d, u, g, s1, s2, s3, s4, s5, h0, h1, h2, h3, h4, hl⟩
  all_goals
    rw [hl]
    simp [loadRef, Sdk.toRef, *]

/-- On an SDK that leaves the object alone, the calls the instrumented SDK sees are the
calls that `load` writes down. -/
theorem observedCalls_toRef (sdk : Sdk σ ε) (s0 : σ) :
    observedCalls sdk.toRef s0 = (load sdk s0).trace := by
  rcases load_shape sdk s0 with ⟨e, h0, hl⟩ | ⟨app, s1, e, h0, h1, hl⟩ |
    ⟨app, a, s1, s2, e, h0, h1, h2, hl⟩ | ⟨app, a, d, s1, s2, s3, e, h0, h1, h2, h3, hl⟩ |
    ⟨app, a, d, u, s1, s2, s3, s4, e, h0, h1, h2, h3, h4, hl⟩ |
    ⟨app, a, d, u, g, s1, s2, s3, s4, s5, h0, h1, h2, h3, h4, hl⟩
  all_goals
    rw [hl]
    simp [observedCalls, loadRef, RefSdk.spy, spyOn, Sdk.toRef, fullTrace, *]

end RefLoadLemmas

/-! ## The configuration record -/

/-- C1 (as stated, refuted): the claim speaks of an exported record `firebaseConfig`, but
no binding of that name is among the exports of a completed load, so it is not true
that for every required field the module exports `firebaseConfig` with that field a
non-empty string. -/
theorem firebaseConfig_is_not_exported :
    ¬ (∀ f ∈ requiredFields,
        "firebaseConfig" ∈ (load freshSdk 0).exported.map Prod.fst ∧
        ∃ v, firebaseConfig.lookup f = some v ∧ v ≠ "") := by
  decide

/-- C1 (amended): for every one of the seven required fields, the module-scope record
`firebaseConfig` has that field set to a non-empty string; the record is not exported,
whatever the SDK does. -/
theorem required_fields_nonempty (f : String) (hf : f ∈ requiredFields) :
    (∃ v, firebaseConfig.lookup f = some v ∧ v ≠ "") ∧
    (∀ (σ ε : Type) (sdk : Sdk σ ε) (s0 : σ) (m : Module) (s : σ),
        (load sdk s0).outcome = .ok (m, s) →
          (∃ v, m.firebaseConfig.lookup f = some v ∧ v ≠ "") ∧
          m.lookupExport "firebaseConfig" = none) := by
  have key : ∃ v, firebaseConfig.lookup f = some v ∧ v ≠ "" := by
    simp only [requiredFields, List.mem_cons, List.mem_singleton, List.not_mem_nil,
      or_false] at hf
    rcases hf with rfl | rfl | rfl | rfl | rfl | rfl | rfl
    · exact ⟨"AIzaSyC_medx_ai_web_api_key", by decide, by decide⟩
    · exact ⟨"medx-ai.firebaseapp.com", by decide, by decide⟩
    · exact ⟨"medx-ai", by decide, by decide⟩
    · exact ⟨"medx-ai.firebasestorage.app", by decide, by decide⟩
    · exact ⟨"987654321", by decide, by decide⟩
    · exact ⟨"1:987654321:web:medx_ai_web_app_id", by decide, by decide⟩
    · exact ⟨"G-MEDX_AI_MEASUREMENT_ID", by decide, by decide⟩
  refine ⟨key, ?_⟩
  intro σ ε sdk s0 m s h
  obtain ⟨_, _, _, _, _, _, _, _, _, hcfg, _⟩ := load_ok_inv sdk s0 s m h
  refine ⟨by rw [hcfg]; exact key, ?_⟩
  simp [Module.lookupExport, Module.exports, List.lookup]

/-- C1 (amended), at the field `appId` and a load with the allocating SDK. -/
theorem required_fields_nonempty_witness :
    "appId" ∈ requiredFields ∧
    (load freshSdk 0).outcome =
      .ok (⟨firebaseConfig, .obj 0, .obj 1, .obj 2, .obj 3, .obj 4⟩, 5) ∧
    (∃ v, firebaseConfig.lookup "appId" = some v ∧ v ≠ "") ∧
    Module.lookupExport ⟨firebaseConfig, .obj 0, .obj 1, .obj 2, .obj 3, .obj 4⟩
      "firebaseConfig" = none :=
  ⟨by decide, rfl, (required_fields_nonempty "appId" (by decide)).1,
    ((required_fields_nonempty "appId" (by decide)).2 Nat String freshSdk 0 _ 5 rfl).2⟩

/-- C9: the fields name one project: `authDomain` is `projectId` followed by
`.firebaseapp.com`, `storageBucket` is `projectId` followed by `.firebasestorage.app`,
and the second `:`-separated component of `appId` is `messagingSenderId`. -/
theorem config_fields_consistent :
    (firebaseConfig.lookup "projectId").isSome = true ∧
    (firebaseConfig.lookup "messagingSenderId").isSome = true ∧
    firebaseConfig.lookup "authDomain" =
      (firebaseConfig.lookup "projectId").map (fun p => p ++ ".firebaseapp.com") ∧
    firebaseConfig.lookup "storageBucket" =
      (firebaseConfig.lookup "projectId").map (fun p => p ++ ".firebasestorage.app") ∧
    (firebaseConfig.lookup "appId").bind (fun i => (splitOnChar i ':')[1]?) =
      firebaseConfig.lookup "messagingSenderId" := by
  decide

/-! ## Exports -/

section Exports

variable {σ ε : Type}

/-- C2: when the five SDK calls return, the export list is exactly the four bindings
`db`, `auth`, `storage`, `analytics`, bound to the results of `getFirestore`, `getAuth`,
`getStorage` and `getAnalytics` on the handle returned by
`initializeApp(firebaseConfig)`, and the record has projectId `medx-ai` and
storageBucket `medx-ai.firebasestorage.app`. -/
theorem exports_are_the_four_service_handles (sdk : Sdk σ ε) (s0 s1 s2 s3 s4 s5 : σ)
    (app a d u g : Handle)
    (h0 : sdk.initializeApp firebaseConfig s0 = .ok (app, s1))
    (h1 : sdk.getAnalytics app s1 = .ok (a, s2))
    (h2 : sdk.getFirestore app s2 = .ok (d, s3))
    (h3 : sdk.getAuth app s3 = .ok (u, s4))
    (h4 : sdk.getStorage app s4 = .ok (g, s5)) :
    (load sdk s0).exported = [("db", d), ("auth", u), ("storage", g), ("analytics", a)] ∧
    (load sdk s0).exported.map Prod.fst = ["db", "auth", "storage", "analytics"] ∧
    firebaseConfig.lookup "projectId" = some "medx-ai" ∧
    firebaseConfig.lookup "storageBucket" = some "medx-ai.firebasestorage.app" := by
  rw [load_all_ok sdk s0 s1 s2 s3 s4 s5 app a d u g h0 h1 h2 h3 h4]
  exact ⟨rfl, rfl, by decide, by decide⟩

/-- C2, on a load with the allocating SDK. -/
theorem exports_are_the_four_service_handles_witness :
    freshSdk.initializeApp firebaseConfig 0 = .ok (.obj 0, 1) ∧
    freshSdk.getAnalytics (.obj 0) 1 = .ok (.obj 1, 2) ∧
    freshSdk.getFirestore (.obj 0) 2 = .ok (.obj 2, 3) ∧
    freshSdk.getAuth (.obj 0) 3 = .ok (.obj 3, 4) ∧
    freshSdk.getStorage (.obj 0) 4 = .ok (.obj 4, 5) ∧
    (load freshSdk 0).exported =
      [("db", .obj 2), ("auth", .obj 3), ("storage", .obj 4), ("analytics", .obj 1)] :=
  ⟨rfl, rfl, rfl, rfl, rfl,
    (exports_are_the_four_service_handles freshSdk 0 1 2 3 4 5 (.obj 0) (.obj 1) (.obj 2)
      (.obj 3) (.obj 4) rfl rfl rfl rfl rfl).1⟩

/-- C6 (as stated, refuted): with an SDK whose getters hand back one shared object the
load completes and exports four bindings, but the four handles are not pairwise
distinct. -/
theorem exported_handles_may_alias :
    ¬ ((load sharedSdk ()).exported.length = 4 ∧
        (∀ p ∈ (load sharedSdk ()).exported, p.2.isDefined = true) ∧
        ((load sharedSdk ()).exported.map Prod.snd).Nodup) := by
  decide

/-- C6 (amended): when the five SDK calls return and the four getters return non-null,
defined and pairwise distinct objects, one run of the load produces exactly four
exported handles, each non-null and defined, and pairwise distinct. -/
theorem exported_handles_distinct_of_sdk (sdk : Sdk σ ε) (s0 s1 s2 s3 s4 s5 : σ)
    (app a d u g : Handle)
    (h0 : sdk.initializeApp firebaseConfig s0 = .ok (app, s1))
    (h1 : sdk.getAnalytics app s1 = .ok (a, s2))
    (h2 : sdk.getFirestore app s2 = .ok (d, s3))
    (h3 : sdk.getAuth app s3 = .ok (u, s4))
    (h4 : sdk.getStorage app s4 = .ok (g, s5))
    (hdef : ∀ h ∈ [d, u, g, a], h.isDefined = true)
    (hne : [d, u, g, a].Nodup) :
    (load sdk s0).exported.length = 4 ∧
    (∀ p ∈ (load sdk s0).exported, p.2.isDefined = true) ∧
    ((load sdk s0).exported.map Prod.snd).Nodup := by
  rw [load_all_ok sdk s0 s1 s2 s3 s4 s5 app a d u g h0 h1 h2 h3 h4]
  refine ⟨rfl, ?_, hne⟩
  intro p hp
  apply hdef
  simp only [LoadResult.exported, Module.exports, List.mem_cons, List.mem_singleton,
    List.not_mem_nil, or_false] at hp
  rcases hp with rfl | rfl | rfl | rfl <;> simp

/-- C6 (amended), on a load with the allocating SDK. -/
theorem exported_handles_distinct_of_sdk_witness :
    freshSdk.initializeApp firebaseConfig 0 = .ok (.obj 0, 1) ∧
    freshSdk.getAnalytics (.obj 0) 1 = .ok (.obj 1, 2) ∧
    freshSdk.getFirestore (.obj 0) 2 = .ok (.obj 2, 3) ∧
    freshSdk.getAuth (.obj 0) 3 = .ok (.obj 3, 4) ∧
    freshSdk.getStorage (.obj 0) 4 = .ok (.obj 4, 5) ∧
    (∀ h ∈ [Handle.obj 2, .obj 3, .obj 4, .obj 1], h.isDefined = true) ∧
    [Handle.obj 2, .obj 3, .obj 4, .obj 1].Nodup ∧
    ((load freshSdk 0).exported.length = 4 ∧
      (∀ p ∈ (load freshSdk 0).exported, p.2.isDefined = true) ∧
      ((load freshSdk 0).exported.map Prod.snd).Nodup) :=
  ⟨rfl, rfl, rfl, rfl, rfl, by decide, by decide,
    exported_handles_distinct_of_sdk freshSdk 0 1 2 3 4 5 (.obj 0) (.obj 1) (.obj 2)
      (.obj 3) (.obj 4) rfl rfl rfl rfl rfl (by decide) (by decide)⟩

end Exports

/-! ## The call sequence -/

section Calls

variable {σ ε : Type}

/-- C3 (as stated, refuted): in a completed load the getter calls do not take the
application handle and the configuration record; the record is not among their
arguments. -/
theorem getters_do_not_take_the_config :
    ¬ (∀ c ∈ (load freshSdk 0).trace, c.fn ≠ .initializeApp →
        Arg.handle (.obj 0) ∈ c.args ∧ Arg.config firebaseConfig ∈ c.args) := by
  decide

/-- C3 (amended): each service getter call takes exactly one argument, the application
handle returned by `initializeApp(firebaseConfig)`, and not the configuration record;
what the four getters return are the four service handles of the module scope. -/
theorem getters_take_only_the_app (sdk : Sdk σ ε) (s0 : σ) (c : Call)
    (hc : c ∈ (load sdk s0).trace) (hfn : c.fn ≠ .initializeApp) :
    (∃ app s1, sdk.initializeApp firebaseConfig s0 = .ok (app, s1) ∧
        c.args = [.handle app]) ∧
    (∀ m s, (load sdk s0).outcome = .ok (m, s) →
      ∃ s1 s2 s3 s4,
        sdk.getAnalytics m.app s1 = .ok (m.analytics, s2) ∧
        sdk.getFirestore m.app s2 = .ok (m.db, s3) ∧
        sdk.getAuth m.app s3 = .ok (m.auth, s4) ∧
        sdk.getStorage m.app s4 = .ok (m.storage, s)) := by
  constructor
  · rcases load_shape sdk s0 with ⟨e, h0, hl⟩ | ⟨app, s1, e, h0, h1, hl⟩ |
      ⟨app, a, s1, s2, e, h0, h1, h2, hl⟩ |
      ⟨app, a, d, s1, s2, s3, e, h0, h1, h2, h3, hl⟩ |
      ⟨app, a, d, u, s1, s2, s3, s4, e, h0, h1, h2, h3, h4, hl⟩ |
      ⟨app, a, d, u, g, s1, s2, s3, s4, s5, h0, h1, h2, h3, h4, hl⟩
    · rw [hl] at hc
      simp only [fullTrace, List.take, List.mem_cons, List.mem_singleton,
        List.not_mem_nil, or_false] at hc
      subst hc
      exact absurd rfl hfn
    all_goals
      rw [hl] at hc
      simp only [fullTrace, List.take, List.mem_cons, List.mem_singleton,
        List.not_mem_nil, or_false] at hc
      refine ⟨app, s1, h0, ?_⟩
      rcases hc with rfl | hc
      · exact absurd rfl hfn
      · rcases hc with rfl | rfl | rfl | rfl <;> rfl
  · intro m s h
    obtain ⟨s1, s2, s3, s4, _, h1, h2, h3, h4, _, _⟩ := load_ok_inv sdk s0 s m h
    exact ⟨s1, s2, s3, s4, h1, h2, h3, h4⟩

/-- C3 (amended), at the `getFirestore` call of a load with the allocating SDK. -/
theorem getters_take_only_the_app_witness :
    (⟨.getFirestore, [.handle (.obj 0)]⟩ : Call) ∈ (load freshSdk 0).trace ∧
    SdkFn.getFirestore ≠ SdkFn.initializeApp ∧
    ∃ app s1, freshSdk.initializeApp firebaseConfig 0 = .ok (app, s1) ∧
      (⟨.getFirestore, [.handle (.obj 0)]⟩ : Call).args = [.handle app] :=
  ⟨by decide, by decide,
    (getters_take_only_the_app freshSdk 0 ⟨.getFirestore, [.handle (.obj 0)]⟩
      (by decide) (by decide)).1⟩

/-- C4 (as stated, refuted): with an SDK whose `getAuth` throws, `initializeApp` is called
once, first, and is the only call that receives `firebaseConfig`, but it is not true that
every service getter is called exactly once with the application handle: `getStorage`
is never called. -/
theorem not_every_getter_is_called :
    ¬ (callCount authDownSdk.toRef 0 .initializeApp = 1 ∧
        (∀ c ∈ observedCalls authDownSdk.toRef 0,
          Arg.config firebaseConfig ∈ c.args → c.fn = .initializeApp) ∧
        ((observedCalls authDownSdk.toRef 0).head?.map (fun c => c.fn) =
          some .initializeApp) ∧
        (∀ f ∈ [SdkFn.getAnalytics, .getFirestore, .getAuth, .getStorage],
          callCount authDownSdk.toRef 0 f = 1 ∧
          ∀ c ∈ observedCalls authDownSdk.toRef 0, c.fn = f →
            c.args = [.handle (.obj 0)])) := by
  decide

/-- C4 (amended): in every load, whatever the SDK does, the first call is
`initializeApp(firebaseConfig)`, it is the only `initializeApp` call and the only call
that receives a configuration record, no SDK function is called more than once, and
the calls are an initial part of `initializeApp`, `getAnalytics`, `getFirestore`,
`getAuth`, `getStorage` with every getter applied to the handle `initializeApp`
returned; when all five calls return, the calls are exactly these five, each made once. -/
theorem observed_call_sequence (sdk : RefSdk σ ε) (s0 : σ) :
    (∃ rest, observedCalls sdk s0 = ⟨.initializeApp, [.config firebaseConfig]⟩ :: rest ∧
        ∀ c ∈ rest, c.fn ≠ .initializeApp ∧ ∀ cfg, Arg.config cfg ∉ c.args) ∧
    callCount sdk s0 .initializeApp = 1 ∧
    (∀ f, callCount sdk s0 f ≤ 1) ∧
    (∀ app o1 s1, sdk.initializeApp firebaseConfig s0 = .ok (app, o1, s1) →
      List.IsPrefix (observedCalls sdk s0)
        [ ⟨.initializeApp, [.config firebaseConfig]⟩,
          ⟨.getAnalytics, [.handle app]⟩,
          ⟨.getFirestore, [.handle app]⟩,
          ⟨.getAuth, [.handle app]⟩,
          ⟨.getStorage, [.handle app]⟩ ]) ∧
    (∀ app a d u g o1 o2 o3 o4 o5 s1 s2 s3 s4 s5,
      sdk.initializeApp firebaseConfig s0 = .ok (app, o1, s1) →
      sdk.getAnalytics app o1 s1 = .ok (a, o2, s2) →
      sdk.getFirestore app o2 s2 = .ok (d, o3, s3) →
      sdk.getAuth app o3 s3 = .ok (u, o4, s4) →
      sdk.getStorage app o4 s4 = .ok (g, o5, s5) →
      observedCalls sdk s0 =
        [ ⟨.initializeApp, [.config firebaseConfig]⟩,
          ⟨.getAnalytics, [.handle app]⟩,
          ⟨.getFirestore, [.handle app]⟩,
          ⟨.getAuth, [.handle app]⟩,
          ⟨.getStorage, [.handle app]⟩ ] ∧
      ∀ f, callCount sdk s0 f = 1) := by
  refine ⟨?_, ?_, ?_, ?_, ?_⟩
  · rcases refLoad_shape sdk s0 with ⟨e, h0, hl, ho⟩ | ⟨app, o1, s1, e, h0, h1, hl, ho⟩ |
      ⟨app, a, o1, o2, s1, s2, e, h0, h1, h2, hl, ho⟩ |
      ⟨app, a, d, o1, o2, o3, s1, s2, s3, e, h0, h1, h2, h3, hl, ho⟩ |
      ⟨app, a, d, u, o1, o2, o3, o4, s1, s2, s3, s4, e, h0, h1, h2, h3, h4, hl, ho⟩ |
      ⟨app, a, d, u, g, o1, o2, o3, o4, o5, s1, s2, s3, s4, s5, h0, h1, h2, h3, h4, hl, ho⟩
    all_goals
      rw [ho]
      refine ⟨_, rfl, ?_⟩
      intro c hc
      simp only [List.take, List.mem_cons, List.mem_singleton, List.not_mem_nil,
        or_false] at hc
      try (rcases hc with rfl | rfl | rfl | rfl <;> simp)
  · rcases refLoad_shape sdk s0 with ⟨e, h0, hl, ho⟩ | ⟨app, o1, s1, e, h0, h1, hl, ho⟩ |
      ⟨app, a, o1, o2, s1, s2, e, h0, h1, h2, hl, ho⟩ |
      ⟨app, a, d, o1, o2, o3, s1, s2, s3, e, h0, h1, h2, h3, hl, ho⟩ |
      ⟨app, a, d, u, o1, o2, o3, o4, s1, s2, s3, s4, e, h0, h1, h2, h3, h4, hl, ho⟩ |
      ⟨app, a, d, u, g, o1, o2, o3, o4, o5, s1, s2, s3, s4, s5, h0, h1, h2, h3, h4, hl, ho⟩
    all_goals
      rw [callCount, ho]
      rfl
  · intro f
    rcases refLoad_shape sdk s0 with ⟨e, h0, hl, ho⟩ | ⟨app, o1, s1, e, h0, h1, hl, ho⟩ |
      ⟨app, a, o1, o2, s1, s2, e, h0, h1, h2, hl, ho⟩ |
      ⟨app, a, d, o1, o2, o3, s1, s2, s3, e, h0, h1, h2, h3, hl, ho⟩ |
      ⟨app, a, d, u, o1, o2, o3, o4, s1, s2, s3, s4, e, h0, h1, h2, h3, h4, hl, ho⟩ |
      ⟨app, a, d, u, g, o1, o2, o3, o4, o5, s1, s2, s3, s4, s5, h0, h1, h2, h3, h4, hl, ho⟩
    all_goals
      rw [callCount, ho]
      cases f <;> first | exact Nat.le_refl 1 | exact Nat.zero_le 1
  · intro app o1 s1 h
    rcases refLoad_shape sdk s0 with ⟨e, h0, hl, ho⟩ | ⟨app2, p1, t1, e, h0, h1, hl, ho⟩ |
      ⟨app2, a, p1, o2, t1, s2, e, h0, h1, h2, hl, ho⟩ |
      ⟨app2, a, d, p1, o2, o3, t1, s2, s3, e, h0, h1, h2, h3, hl, ho⟩ |
      ⟨app2, a, d, u, p1, o2, o3, o4, t1, s2, s3, s4, e, h0, h1, h2, h3, h4, hl, ho⟩ |
      ⟨app2, a, d, u, g, p1, o2, o3, o4, o5, t1, s2, s3, s4, s5, h0, h1, h2, h3, h4, hl, ho⟩
    · rw [h] at h0
      cases h0
    all_goals
      rw [h] at h0
      simp only [Except.ok.injEq, Prod.mk.injEq] at h0
      obtain ⟨rfl, _, _⟩ := h0
      rw [ho]
      first
        | exact List.take_prefix _ (fullTrace app)
        | exact List.prefix_refl (fullTrace app)
  · intro app a d u g o1 o2 o3 o4 o5 s1 s2 s3 s4 s5 h0 h1 h2 h3 h4
    have ho := (refLoad_all_ok sdk s0 s1 s2 s3 s4 s5 app a d u g o1 o2 o3 o4 o5
      h0 h1 h2 h3 h4).2
    refine ⟨ho, ?_⟩
    intro f
    rw [callCount, ho]
    cases f <;> rfl

/-- C4 (amended), on a load with the allocating SDK. -/
theorem observed_call_sequence_witness :
    freshSdk.toRef.initializeApp firebaseConfig 0 = .ok (.obj 0, firebaseConfig, 1) ∧
    freshSdk.toRef.getAnalytics (.obj 0) firebaseConfig 1 = .ok (.obj 1, firebaseConfig, 2) ∧
    freshSdk.toRef.getFirestore (.obj 0) firebaseConfig 2 = .ok (.obj 2, firebaseConfig, 3) ∧
    freshSdk.toRef.getAuth (.obj 0) firebaseConfig 3 = .ok (.obj 3, firebaseConfig, 4) ∧
    freshSdk.toRef.getStorage (.obj 0) firebaseConfig 4 = .ok (.obj 4, firebaseConfig, 5) ∧
    observedCalls freshSdk.toRef 0 =
      [ ⟨.initializeApp, [.config firebaseConfig]⟩,
        ⟨.getAnalytics, [.handle (.obj 0)]⟩,
        ⟨.getFirestore, [.handle (.obj 0)]⟩,
        ⟨.getAuth, [.handle (.obj 0)]⟩,
        ⟨.getStorage, [.handle (.obj 0)]⟩ ] :=
  ⟨rfl, rfl, rfl, rfl, rfl,
    ((observed_call_sequence freshSdk.toRef 0).2.2.2.2 (.obj 0) (.obj 1) (.obj 2) (.obj 3)
      (.obj 4) firebaseConfig firebaseConfig firebaseConfig firebaseConfig firebaseConfig
      1 2 3 4 5 rfl rfl rfl rfl rfl).1⟩

/-- C5: the load neither catches nor alters a failure.  Whichever of the five calls
throws `e`, the load ends with exactly `e`, the trace ends with the throwing call, and
nothing is exported; the load completes iff all five calls return. -/
theorem sdk_failure_propagates (sdk : Sdk σ ε) (s0 : σ) :
    (∀ e, sdk.initializeApp firebaseConfig s0 = .error e →
      load sdk s0 = ⟨[⟨.initializeApp, [.config firebaseConfig]⟩], .error e⟩) ∧
    (∀ app s1 e, sdk.initializeApp firebaseConfig s0 = .ok (app, s1) →
      sdk.getAnalytics app s1 = .error e →
      load sdk s0 =
        ⟨[⟨.initializeApp, [.config firebaseConfig]⟩, ⟨.getAnalytics, [.handle app]⟩],
          .error e⟩) ∧
    (∀ app s1 a s2 e, sdk.initializeApp firebaseConfig s0 = .ok (app, s1) →
      sdk.getAnalytics app s1 = .ok (a, s2) →
      sdk.getFirestore app s2 = .error e →
      load sdk s0 =
        ⟨[⟨.initializeApp, [.config firebaseConfig]⟩, ⟨.getAnalytics, [.handle app]⟩,
          ⟨.getFirestore, [.handle app]⟩], .error e⟩) ∧
    (∀ app s1 a s2 d s3 e, sdk.initializeApp firebaseConfig s0 = .ok (app, s1) →
      sdk.getAnalytics app s1 = .ok (a, s2) →
      sdk.getFirestore app s2 = .ok (d, s3) →
      sdk.getAuth app s3 = .error e →
      load sdk s0 =
        ⟨[⟨.initializeApp, [.config firebaseConfig]⟩, ⟨.getAnalytics, [.handle app]⟩,
          ⟨.getFirestore, [.handle app]⟩, ⟨.getAuth, [.handle app]⟩], .error e⟩) ∧
    (∀ app s1 a s2 d s3 u s4 e, sdk.initializeApp firebaseConfig s0 = .ok (app, s1) →
      sdk.getAnalytics app s1 = .ok (a, s2) →
      sdk.getFirestore app s2 = .ok (d, s3) →
      sdk.getAuth app s3 = .ok (u, s4) →
      sdk.getStorage app s4 = .error e →
      load sdk s0 =
        ⟨[⟨.initializeApp, [.config firebaseConfig]⟩, ⟨.getAnalytics, [.handle app]⟩,
          ⟨.getFirestore, [.handle app]⟩, ⟨.getAuth, [.handle app]⟩,
          ⟨.getStorage, [.handle app]⟩], .error e⟩) ∧
    (∀ e, (load sdk s0).outcome = .error e → (load sdk s0).exported = []) ∧
    ((∃ m s, (load sdk s0).outcome = .ok (m, s)) ↔
      ∃ app s1 a s2 d s3 u s4 g s5,
        sdk.initializeApp firebaseConfig s0 = .ok (app, s1) ∧
        sdk.getAnalytics app s1 = .ok (a, s2) ∧
        sdk.getFirestore app s2 = .ok (d, s3) ∧
        sdk.getAuth app s3 = .ok (u, s4) ∧
        sdk.getStorage app s4 = .ok (g, s5)) := by
  refine ⟨?_, ?_, ?_, ?_, ?_, ?_, ?_, ?_⟩
  · intro e h0
    exact load_initializeApp_error sdk s0 e h0
  · intro app s1 e h0 h1
    exact load_getAnalytics_error sdk s0 s1 app e h0 h1
  · intro app s1 a s2 e h0 h1 h2
    exact load_getFirestore_error sdk s0 s1 s2 app a e h0 h1 h2
  · intro app s1 a s2 d s3 e h0 h1 h2 h3
    exact load_getAuth_error sdk s0 s1 s2 s3 app a d e h0 h1 h2 h3
  · intro app s1 a s2 d s3 u s4 e h0 h1 h2 h3 h4
    exact load_getStorage_error sdk s0 s1 s2 s3 s4 app a d u e h0 h1 h2 h3 h4
  · intro e h
    simp [LoadResult.exported, h]
  · rintro ⟨m, s, h⟩
    obtain ⟨s1, s2, s3, s4, h0, h1, h2, h3, h4, _, _⟩ := load_ok_inv sdk s0 s m h
    exact ⟨_, s1, _, s2, _, s3, _, s4, _, s, h0, h1, h2, h3, h4⟩
  · rintro ⟨app, s1, a, s2, d, s3, u, s4, g, s5, h0, h1, h2, h3, h4⟩
    exact ⟨_, s5, by rw [load_all_ok sdk s0 s1 s2 s3 s4 s5 app a d u g h0 h1 h2 h3 h4]⟩

/-- C5, on a load with an SDK whose `getAuth` throws: the load ends with that very
value after four calls, `getStorage` is never called, nothing is exported. -/
theorem sdk_failure_propagates_witness :
    authDownSdk.initializeApp firebaseConfig 0 = .ok (.obj 0, 1) ∧
    authDownSdk.getAnalytics (.obj 0) 1 = .ok (.obj 1, 2) ∧
    authDownSdk.getFirestore (.obj 0) 2 = .ok (.obj 2, 3) ∧
    authDownSdk.getAuth (.obj 0) 3 = .error "auth/network-request-failed" ∧
    load authDownSdk 0 =
      ⟨[⟨.initializeApp, [.config firebaseConfig]⟩, ⟨.getAnalytics, [.handle (.obj 0)]⟩,
        ⟨.getFirestore, [.handle (.obj 0)]⟩, ⟨.getAuth, [.handle (.obj 0)]⟩],
        .error "auth/network-request-failed"⟩ ∧
    (load authDownSdk 0).exported = [] :=
  ⟨rfl, rfl, rfl, rfl,
    (sdk_failure_propagates authDownSdk 0).2.2.2.1 (.obj 0) 1 (.obj 1) 2 (.obj 2) 3 _
      rfl rfl rfl rfl,
    (sdk_failure_propagates authDownSdk 0).2.2.2.2.2.1 "auth/network-request-failed" rfl⟩

/-- C8 (as stated, refuted): the record handed to `initializeApp` is the literal, but it
is handed over by reference and is not frozen; with an SDK that blanks the API key in
the object it was handed, the load completes and `firebaseConfig.apiKey` no longer has
its literal value. -/
theorem sdk_may_write_firebaseConfig :
    ¬ ((observedCalls redactingSdk 0).head? =
          some ⟨.initializeApp, [.config firebaseConfig]⟩ ∧
        ∀ m s, loadRef redactingSdk 0 = .ok (m, s) →
          ∀ f ∈ requiredFields, m.firebaseConfig.lookup f = firebaseConfig.lookup f) := by
  rintro ⟨_, h⟩
  have key := h _ _ rfl "apiKey" (by decide)
  revert key
  decide

/-- C8 (amended): the module itself never writes to the configuration record.  In every
load the first call is `initializeApp` applied to exactly the seven-field literal, and
that is the argument of every `initializeApp` call; when the five calls return, the
object goes from each call to the next as that call left it and the binding
`firebaseConfig` holds what the last call left; so with an SDK that does not write to
the object, every field still has its literal value after the load. -/
theorem module_never_writes_firebaseConfig (sdk : RefSdk σ ε) (s0 : σ) :
    (observedCalls sdk s0).head? =
      some ⟨.initializeApp,
        [.config
          [ ("apiKey", "AIzaSyC_medx_ai_web_api_key"),
            ("authDomain", "medx-ai.firebaseapp.com"),
            ("projectId", "medx-ai"),
            ("storageBucket", "medx-ai.firebasestorage.app"),
            ("messagingSenderId", "987654321"),
            ("appId", "1:987654321:web:medx_ai_web_app_id"),
            ("measurementId", "G-MEDX_AI_MEASUREMENT_ID") ]]⟩ ∧
    (∀ c ∈ observedCalls sdk s0, c.fn = .initializeApp →
      c.args = [.config firebaseConfig]) ∧
    (∀ app a d u g o1 o2 o3 o4 o5 s1 s2 s3 s4 s5,
      sdk.initializeApp firebaseConfig s0 = .ok (app, o1, s1) →
      sdk.getAnalytics app o1 s1 = .ok (a, o2, s2) →
      sdk.getFirestore app o2 s2 = .ok (d, o3, s3) →
      sdk.getAuth app o3 s3 = .ok (u, o4, s4) →
      sdk.getStorage app o4 s4 = .ok (g, o5, s5) →
      loadRef sdk s0 = .ok (⟨o5, app, a, d, u, g⟩, s5)) ∧
    (sdk.LeavesConfig → ∀ m s, loadRef sdk s0 = .ok (m, s) →
      m.firebaseConfig =
        [ ("apiKey", "AIzaSyC_medx_ai_web_api_key"),
          ("authDomain", "medx-ai.firebaseapp.com"),
          ("projectId", "medx-ai"),
          ("storageBucket", "medx-ai.firebasestorage.app"),
          ("messagingSenderId", "987654321"),
          ("appId", "1:987654321:web:medx_ai_web_app_id"),
          ("measurementId", "G-MEDX_AI_MEASUREMENT_ID") ]) := by
  refine ⟨?_, ?_, ?_, ?_⟩
  · rcases refLoad_shape sdk s0 with ⟨e, h0, hl, ho⟩ | ⟨app, o1, s1, e, h0, h1, hl, ho⟩ |
      ⟨app, a, o1, o2, s1, s2, e, h0, h1, h2, hl, ho⟩ |
      ⟨app, a, d, o1, o2, o3, s1, s2, s3, e, h0, h1, h2, h3, hl, ho⟩ |
      ⟨app, a, d, u, o1, o2, o3, o4, s1, s2, s3, s4, e, h0, h1, h2, h3, h4, hl, ho⟩ |
      ⟨app, a, d, u, g, o1, o2, o3, o4, o5, s1, s2, s3, s4, s5, h0, h1, h2, h3, h4, hl, ho⟩
    all_goals
      rw [ho]
      rfl
  · intro c hc hfn
    rcases refLoad_shape sdk s0 with ⟨e, h0, hl, ho⟩ | ⟨app, o1, s1, e, h0, h1, hl, ho⟩ |
      ⟨app, a, o1, o2, s1, s2, e, h0, h1, h2, hl, ho⟩ |
      ⟨app, a, d, o1, o2, o3, s1, s2, s3, e, h0, h1, h2, h3, hl, ho⟩ |
      ⟨app, a, d, u, o1, o2, o3, o4, s1, s2, s3, s4, e, h0, h1, h2, h3, h4, hl, ho⟩ |
      ⟨app, a, d, u, g, o1, o2, o3, o4, o5, s1, s2, s3, s4, s5, h0, h1, h2, h3, h4, hl, ho⟩
    all_goals
      rw [ho] at hc
      simp only [fullTrace, List.take, List.mem_cons, List.mem_singleton,
        List.not_mem_nil, or_false] at hc
      try (rcases hc with rfl | rfl | rfl | rfl | rfl <;> first | rfl | cases hfn)
  · intro app a d u g o1 o2 o3 o4 o5 s1 s2 s3 s4 s5 h0 h1 h2 h3 h4
    exact (refLoad_all_ok sdk s0 s1 s2 s3 s4 s5 app a d u g o1 o2 o3 o4 o5
      h0 h1 h2 h3 h4).1
  · intro hframe m s h
    obtain ⟨f0, f1, f2, f3, f4⟩ := hframe
    obtain ⟨o1, o2, o3, o4, s1, s2, s3, s4, h0, h1, h2, h3, h4, _⟩ :=
      refLoad_ok_inv sdk s0 s m h
    have e1 := f0 _ _ _ _ _ h0
    have e2 := f1 _ _ _ _ _ _ h1
    have e3 := f2 _ _ _ _ _ _ h2
    have e4 := f3 _ _ _ _ _ _ h3
    have e5 := f4 _ _ _ _ _ _ h4
    rw [e5, e4, e3, e2, e1]
    rfl

/-- C8 (amended), on a load with the allocating SDK, which leaves the object alone. -/
theorem module_never_writes_firebaseConfig_witness :
    freshSdk.toRef.LeavesConfig ∧
    loadRef freshSdk.toRef 0 =
      .ok (⟨firebaseConfig, .obj 0, .obj 1, .obj 2, .obj 3, .obj 4⟩, 5) ∧
    (⟨firebaseConfig, .obj 0, .obj 1, .obj 2, .obj 3, .obj 4⟩ : Module).firebaseConfig =
      [ ("apiKey", "AIzaSyC_medx_ai_web_api_key"),
        ("authDomain", "medx-ai.firebaseapp.com"),
        ("projectId", "medx-ai"),
        ("storageBucket", "medx-ai.firebasestorage.app"),
        ("messagingSenderId", "987654321"),
        ("appId", "1:987654321:web:medx_ai_web_app_id"),
        ("measurementId", "G-MEDX_AI_MEASUREMENT_ID") ] :=
  ⟨toRef_leavesConfig freshSdk, rfl,
    (module_never_writes_firebaseConfig freshSdk.toRef 0).2.2.2 (toRef_leavesConfig freshSdk)
      _ 5 rfl⟩

end Calls

end FirebaseConfig
